import Mathlib

/-!
Verification of the SBOM search endpoint
(`spog/api/src/endpoints/sbom/search.rs` of the trustification repository).

The endpoint performs a primary SBOM search, maps the backend documents to
public `SbomSummary` values, enriches each summary with an advisory count via
a secondary search, and wraps the result into a `SearchResult` envelope.
Backends (`search_sbom`, `search_vex`) and the query-derivation method
`advisories_query` live outside the excerpt and are modelled as function
parameters.
-/

namespace SbomSearch

/-- `SearchOptions` of `trustification_api::search`: three independent
boolean toggles sent to the backends. -/
structure SearchOptions where
  explain : Bool
  metadata : Bool
  summaries : Bool
deriving DecidableEq, Repr

/-- Opaque metadata blob attached to a backend result item; `unwrap_or_default`
in the source needs only a default value. -/
abbrev Metadata := List (String × String)

/-- Backend-owned SBOM document, read-only to this core.  Field types follow
the fields the handler copies verbatim. -/
structure SbomDocument where
  id : String
  purl : Option String
  name : String
  cpe : Option String
  version : String
  sha256 : String
  license : String
  snippet : String
  classifier : String
  supplier : String
  description : String
  dependencies : Nat
  created : Nat
deriving DecidableEq, Repr

/-- One entry of the primary backend's result list: the document together with
its optional metadata blob (`item.metadata` / `item.document` in the source). -/
structure ResultItem where
  document : SbomDocument
  metadata : Option Metadata
deriving DecidableEq, Repr

/-- Public summary shape, `spog_model::search::SbomSummary`. -/
structure SbomSummary where
  id : String
  purl : Option String
  name : String
  cpe : Option String
  version : String
  sha256 : String
  license : String
  snippet : String
  classifier : String
  supplier : String
  href : String
  description : String
  dependencies : Nat
  vulnerabilities : List String
  advisories : Option Nat
  created : Nat
  metadata : Metadata
deriving DecidableEq, Repr

/-- Response of the primary `search_sbom` backend call: a reported total and
a page of result items. -/
structure PrimaryResponse where
  total : Nat
  result : List ResultItem
deriving DecidableEq, Repr

/-- Response of the secondary `search_vex` backend call; the handler consumes
only its `total`. -/
structure VexResponse where
  total : Nat
deriving DecidableEq, Repr

/-- Opaque backend error (`BackendError` in the source). -/
structure BackendError where
  msg : String
deriving DecidableEq, Repr

/-- Caller credential: the optional bearer token forwarded to both backends. -/
abbrev Credential := Option String

/-- Query parameters of the inbound request (`search::QueryParams`). -/
structure QueryParams where
  q : String
  offset : Nat
  limit : Nat
deriving DecidableEq, Repr

/-- The public response envelope `SearchResult` with an optional total. -/
structure SearchResult (T : Type) where
  total : Option Nat
  result : List T
deriving DecidableEq, Repr

/-- Type of the primary backend call `state.search_sbom(q, offset, limit,
options, token)`. -/
abbrev SbomBackend :=
  String → Nat → Nat → SearchOptions → Credential → Except BackendError PrimaryResponse

/-- Type of the secondary backend call `state.search_vex(q, offset, limit,
options, provider)`. -/
abbrev VexBackend :=
  String → Nat → Nat → SearchOptions → Credential → Except BackendError VexResponse

/-- Type of `SbomSummary::advisories_query`, the advisory-query derivation
defined outside the excerpt (in `spog_model`). -/
abbrev AdvisoriesQuery := SbomSummary → Option String

/-- Fuel-driven embedding of Rust `str::trim_start_matches` on character
lists: repeatedly removes the prefix `pat` while it matches.  Each removal
consumes at least one character, so fuel equal to the string length is
exhaustive. -/
def stripAllFuel (pat : List Char) : Nat → List Char → List Char
  | 0, s => s
  | fuel + 1, s =>
    if !pat.isEmpty && pat.isPrefixOf s then stripAllFuel pat fuel (s.drop pat.length)
    else s

/-- Rust `str::trim_start_matches(pat)` on strings. -/
def trimStartMatches (pat s : String) : String :=
  ⟨stripAllFuel pat.data s.data.length s.data⟩

/-- Result mapper: the body of the `for item in data.result` loop of `search`,
building one `SbomSummary` from one backend result item. -/
def mapSummary (item : ResultItem) : SbomSummary :=
  let metadata := item.metadata.getD []
  let doc := item.document
  { id := doc.id
    purl := doc.purl
    name := doc.name
    cpe := doc.cpe
    version := doc.version
    sha256 := doc.sha256
    license := doc.license
    snippet := doc.snippet
    classifier := doc.classifier
    supplier := trimStartMatches "Organization: " doc.supplier
    href := "/api/v1/sbom?id=" ++ doc.id
    description := doc.description
    dependencies := doc.dependencies
    vulnerabilities := []
    advisories := none
    created := doc.created
    metadata := metadata }

/-- The fixed options `SearchOptions { explain: false, metadata: false,
summaries: false }` every secondary advisory search is issued with. -/
def enrichOptions : SearchOptions :=
  { explain := false, metadata := false, summaries := false }

/-- The loop body of `search_advisories` for one summary: derive the advisory
query; if derivable, call `search_vex(q, 0, 100000, enrichOptions, provider)`
and on success set `advisories = Some(result.total)`; otherwise leave the
summary untouched. -/
def enrichOne (vex : VexBackend) (aq : AdvisoriesQuery) (provider : Credential)
    (sbom : SbomSummary) : SbomSummary :=
  match aq sbom with
  | none => sbom
  | some q =>
    match vex q 0 100000 enrichOptions provider with
    | Except.ok result => { sbom with advisories := some result.total }
    | Except.error _ => sbom

/-- `search_advisories`: enrich every summary of the list in order. -/
def search_advisories (vex : VexBackend) (aq : AdvisoriesQuery)
    (provider : Credential) (sboms : List SbomSummary) : List SbomSummary :=
  sboms.map (enrichOne vex aq provider)

/-- The `search` handler: primary search (propagating its error with `?`),
result mapping, envelope construction with the primary total, then in-place
enrichment of the summary list. -/
def search (sbomB : SbomBackend) (vex : VexBackend) (aq : AdvisoriesQuery)
    (params : QueryParams) (options : SearchOptions) (accessToken : Credential) :
    Except BackendError (SearchResult SbomSummary) :=
  match sbomB params.q params.offset params.limit options accessToken with
  | Except.error e => Except.error e
  | Except.ok data =>
    let m : List SbomSummary := data.result.map mapSummary
    let result : SearchResult SbomSummary := { total := some data.total, result := m }
    let enriched := search_advisories vex aq accessToken result.result
    Except.ok { result with result := enriched }

/-- Severity buckets of `v11y_model::search::Cves::Severity` used by the
stub endpoint. -/
inductive Severity where
  | none
  | low
  | medium
  | high
  | critical
deriving DecidableEq, Repr

/-- `SummaryEntry` of `spog_model::prelude`: a severity paired with a count. -/
structure SummaryEntry where
  severity : Severity
  count : Nat
deriving DecidableEq, Repr

/-- The `sboms_with_vulnerability_summary` handler: takes no request input and
returns `Ok(HttpResponse::Ok().json(summary))`, modelled as status 200 plus
the JSON body. -/
def sboms_with_vulnerability_summary :
    Except BackendError (Nat × List (String × List SummaryEntry)) :=
  let summaryEntryNone : SummaryEntry := { severity := Severity.none, count := 3 }
  let summaryEntryLow : SummaryEntry := { severity := Severity.low, count := 5 }
  let summaryEntryMedium : SummaryEntry := { severity := Severity.medium, count := 10 }
  let summaryEntryHigh : SummaryEntry := { severity := Severity.high, count := 4 }
  let summaryEntryCritical : SummaryEntry := { severity := Severity.critical, count := 2 }
  let entries : List SummaryEntry :=
    [summaryEntryNone, summaryEntryLow, summaryEntryMedium, summaryEntryHigh,
      summaryEntryCritical]
  Except.ok (200, [("sbom1", entries), ("sbom2", entries), ("sbom3", entries)])

/-- The claim's reading of supplier normalization (spec wording, for
comparison with the source's `trimStartMatches`): strip a single leading
occurrence of `pat` when present. -/
def stripSingleLeading (pat s : String) : String :=
  if pat.data.isPrefixOf s.data then ⟨s.data.drop pat.data.length⟩ else s

/-- Modelled from the spec: the page contract of the primary SBOM search
backend, whose implementation is outside the excerpt.  At offset `offset` it
returns exactly `min(total_remaining, limit)` items, where `total_remaining`
is `total - offset`. -/
def PrimaryPageContract (params : QueryParams) (data : PrimaryResponse) : Prop :=
  data.result.length = min (data.total - params.offset) params.limit

/-- Concrete document 1 of the spec's test scenario (supplier carries the
`Organization: ` label). -/
def wDoc1 : SbomDocument :=
  { id := "sbom-1", purl := some "pkg:maven/log4j@2.0", name := "doc1", cpe := none,
    version := "2.0", sha256 := "aa11", license := "Apache-2.0", snippet := "s1",
    classifier := "sbom", supplier := "Organization: Acme Corp",
    description := "first", dependencies := 2, created := 100 }

/-- Concrete document 2 of the spec's test scenario. -/
def wDoc2 : SbomDocument :=
  { id := "sbom-2", purl := none, name := "doc2", cpe := some "cpe:/a:x:y",
    version := "1.1", sha256 := "bb22", license := "MIT", snippet := "s2",
    classifier := "sbom", supplier := "Acme Two",
    description := "second", dependencies := 0, created := 200 }

/-- Concrete primary response: two documents on the page, reported total 5. -/
def wData : PrimaryResponse :=
  { total := 5,
    result := [{ document := wDoc1, metadata := none },
               { document := wDoc2, metadata := some [("k", "v")] }] }

/-- Concrete primary backend that always succeeds with `wData`. -/
def wSbomB : SbomBackend := fun _ _ _ _ _ => Except.ok wData

/-- Concrete primary backend that always fails. -/
def wSbomErrB : SbomBackend := fun _ _ _ _ _ => Except.error { msg := "primary down" }

/-- Concrete advisory backend: total 3 for document 1's derived query, error
for every other query. -/
def wVex : VexBackend := fun q _ _ _ _ =>
  if q = "name:doc1" then Except.ok { total := 3 } else Except.error { msg := "vex down" }

/-- Concrete advisory-query derivation: derivable for the two mapped
documents, underivable otherwise. -/
def wAq : AdvisoriesQuery := fun s =>
  if s.name = "doc1" then some "name:doc1"
  else if s.name = "doc2" then some "name:doc2"
  else none

/-- Concrete request parameters of the spec's test scenario. -/
def wParams : QueryParams := { q := "log4j", offset := 0, limit := 2 }

/-- Concrete request options. -/
def wOptions : SearchOptions := { explain := false, metadata := true, summaries := false }

/-- Concrete caller credential. -/
def wTok : Credential := some "token"

/-- Concrete document whose supplier repeats the `Organization: ` label
twice. -/
def c5doc : SbomDocument :=
  { wDoc1 with supplier := "Organization: Organization: Acme Corp" }

/-- The five-element severity sequence the stub endpoint pairs with every
SBOM key. -/
def fixedSeverityEntries : List SummaryEntry :=
  [{ severity := Severity.none, count := 3 }, { severity := Severity.low, count := 5 },
   { severity := Severity.medium, count := 10 }, { severity := Severity.high, count := 4 },
   { severity := Severity.critical, count := 2 }]

theorem isPrefixOf_iff_append (l₁ : List Char) :
    ∀ l₂, l₁.isPrefixOf l₂ = true ↔ ∃ t, l₂ = l₁ ++ t := by
  induction l₁ with
  | nil => intro l₂; simp [List.isPrefixOf]
  | cons a as ih =>
    intro l₂
    cases l₂ with
    | nil => simp [List.isPrefixOf]
    | cons b bs =>
      simp only [List.isPrefixOf, Bool.and_eq_true, beq_iff_eq, ih bs,
        List.cons_append, List.cons.injEq]
      constructor
      · rintro ⟨hab, t, ht⟩; exact ⟨t, hab.symm, ht⟩
      · rintro ⟨t, hab, ht⟩; exact ⟨hab.symm, t, ht⟩

theorem stripAllFuel_of_no_match {pat s : List Char} (h : pat.isPrefixOf s = false)
    (fuel : Nat) : stripAllFuel pat fuel s = s := by
  cases fuel with
  | zero => rfl
  | succ n => simp [stripAllFuel, h]

theorem stripAllFuel_spec (pat : List Char) (hpat : pat ≠ []) :
    ∀ fuel s, s.length ≤ fuel →
      (∃ k, s = (List.replicate k pat).flatten ++ stripAllFuel pat fuel s) ∧
        pat.isPrefixOf (stripAllFuel pat fuel s) = false := by
  intro fuel
  induction fuel with
  | zero =>
    intro s hs
    have hnil : s = [] := List.eq_nil_of_length_eq_zero (Nat.le_zero.mp hs)
    subst hnil
    refine ⟨⟨0, by simp [stripAllFuel]⟩, ?_⟩
    cases pat with
    | nil => exact absurd rfl hpat
    | cons a as => rfl
  | succ fuel ih =>
    intro s hs
    by_cases h : pat.isPrefixOf s = true
    · obtain ⟨t, ht⟩ := (isPrefixOf_iff_append pat s).mp h
      have hne : pat.isEmpty = false := by
        cases pat with
        | nil => exact absurd rfl hpat
        | cons a as => rfl
      have hstep : stripAllFuel pat (fuel + 1) s = stripAllFuel pat fuel t := by
        simp only [stripAllFuel, hne, h, Bool.not_false, Bool.and_self, if_true]
        rw [ht, List.drop_left]
      have hlen : t.length ≤ fuel := by
        have hp1 : 1 ≤ pat.length := by
          cases pat with
          | nil => exact absurd rfl hpat
          | cons a as => exact Nat.succ_le_succ (Nat.zero_le _)
        have : pat.length + t.length ≤ fuel + 1 := by
          simpa [ht, List.length_append] using hs
        omega
      obtain ⟨⟨k, hk⟩, hnp⟩ := ih t hlen
      refine ⟨⟨k + 1, ?_⟩, ?_⟩
      · rw [hstep, ht, List.replicate_succ, List.flatten_cons, List.append_assoc, ← hk]
      · rw [hstep]; exact hnp
    · have hfalse : pat.isPrefixOf s = false := by
        cases hps : pat.isPrefixOf s with
        | false => rfl
        | true => exact absurd hps h
      rw [stripAllFuel_of_no_match hfalse]
      exact ⟨⟨0, by simp⟩, hfalse⟩

theorem enrichOne_frame (vex : VexBackend) (aq : AdvisoriesQuery) (c : Credential)
    (s : SbomSummary) :
    enrichOne vex aq c s = { s with advisories := (enrichOne vex aq c s).advisories } := by
  cases haq : aq s with
  | none => simp [enrichOne, haq]
  | some q =>
    cases hv : vex q 0 100000 enrichOptions c with
    | ok r => simp [enrichOne, haq, hv]
    | error e => simp [enrichOne, haq, hv]

theorem enrichOne_of_fail (vex : VexBackend) (aq : AdvisoriesQuery) (c : Credential)
    (s : SbomSummary)
    (h : aq s = none ∨ ∃ q e, aq s = some q ∧ vex q 0 100000 enrichOptions c = Except.error e) :
    enrichOne vex aq c s = s := by
  rcases h with h | ⟨q, e, hq, he⟩
  · simp [enrichOne, h]
  · simp [enrichOne, hq, he]

theorem search_eq_ok (sbomB : SbomBackend) (vex : VexBackend) (aq : AdvisoriesQuery)
    (params : QueryParams) (options : SearchOptions) (tok : Credential)
    (data : PrimaryResponse)
    (hp : sbomB params.q params.offset params.limit options tok = Except.ok data) :
    search sbomB vex aq params options tok =
      Except.ok { total := some data.total,
                  result := data.result.map fun it => enrichOne vex aq tok (mapSummary it) } := by
  simp only [search, hp, search_advisories, List.map_map]
  rfl

theorem enrichOne_href (vex : VexBackend) (aq : AdvisoriesQuery) (c : Credential)
    (s : SbomSummary) : (enrichOne vex aq c s).href = s.href := by
  rw [enrichOne_frame]

theorem enrichOne_congr (vex vex2 : VexBackend) (aq : AdvisoriesQuery) (tok : Credential)
    (hagree : ∀ q2, vex2 q2 0 100000 enrichOptions tok = vex q2 0 100000 enrichOptions tok)
    (s : SbomSummary) : enrichOne vex2 aq tok s = enrichOne vex aq tok s := by
  cases h : aq s with
  | none => simp [enrichOne, h]
  | some q2 => simp [enrichOne, h, hagree q2]

/-- C1: when the primary search succeeds, the request returns the full
summary list (same length as the page); and any item whose advisory query is
not derivable, or whose secondary advisory search fails, keeps
`advisories = none` in the response — per-item enrichment failure never
aborts the request. -/
theorem c1_enrichment_failure_isolated (sbomB : SbomBackend) (vex : VexBackend)
    (aq : AdvisoriesQuery) (params : QueryParams) (options : SearchOptions)
    (tok : Credential) (data : PrimaryResponse)
    (hp : sbomB params.q params.offset params.limit options tok = Except.ok data) :
    ∃ res, search sbomB vex aq params options tok = Except.ok res ∧
      res.result.length = data.result.length ∧
      ∀ (i : Nat) (item : ResultItem), data.result[i]? = some item →
        (aq (mapSummary item) = none ∨
          ∃ q e, aq (mapSummary item) = some q ∧
            vex q 0 100000 enrichOptions tok = Except.error e) →
        ∃ s, res.result[i]? = some s ∧ s.advisories = none := by
  refine ⟨_, search_eq_ok sbomB vex aq params options tok data hp, by simp, ?_⟩
  intro i item hitem hfail
  refine ⟨enrichOne vex aq tok (mapSummary item), ?_, ?_⟩
  · rw [List.getElem?_map, hitem]; rfl
  · rw [enrichOne_of_fail vex aq tok (mapSummary item) hfail]; rfl

theorem c1_enrichment_failure_isolated_witness :
    ∃ res, search wSbomB wVex wAq wParams wOptions wTok = Except.ok res ∧
      res.result.length = 2 ∧
      ∃ s, res.result[1]? = some s ∧ s.advisories = none := by
  obtain ⟨res, h1, h2, h3⟩ :=
    c1_enrichment_failure_isolated wSbomB wVex wAq wParams wOptions wTok wData rfl
  exact ⟨res, h1, h2,
    h3 1 { document := wDoc2, metadata := some [("k", "v")] } rfl
      (Or.inr ⟨"name:doc2", { msg := "vex down" }, rfl, rfl⟩)⟩

/-- C3: when the advisory query is derivable and the secondary search
succeeds, enrichment sets `advisories` to exactly the secondary search's
total; and the enrichment consults the advisory backend only at offset 0,
limit 100000, options all false, and the caller's credential (two backends
agreeing on those calls yield identical enrichment). -/
theorem c3_enrichment_success_and_call_shape (vex : VexBackend) (aq : AdvisoriesQuery)
    (tok : Credential) (s : SbomSummary) (q : String) (r : VexResponse)
    (vex2 : VexBackend) (sboms : List SbomSummary)
    (hq : aq s = some q)
    (hr : vex q 0 100000 enrichOptions tok = Except.ok r)
    (hagree : ∀ q2, vex2 q2 0 100000 enrichOptions tok = vex q2 0 100000 enrichOptions tok) :
    (enrichOne vex aq tok s).advisories = some r.total ∧
      search_advisories vex2 aq tok sboms = search_advisories vex aq tok sboms := by
  constructor
  · simp [enrichOne, hq, hr]
  · unfold search_advisories
    exact List.map_congr_left fun x _ => enrichOne_congr vex vex2 aq tok hagree x

theorem c3_enrichment_success_and_call_shape_witness :
    (enrichOne wVex wAq wTok (mapSummary { document := wDoc1, metadata := none })).advisories =
        some 3 ∧
      search_advisories wVex wAq wTok [] = search_advisories wVex wAq wTok [] :=
  c3_enrichment_success_and_call_shape wVex wAq wTok
    (mapSummary { document := wDoc1, metadata := none }) "name:doc1" { total := 3 } wVex []
    rfl rfl (fun _ => rfl)

/-- C6: under the primary backend's page contract (modelled from the spec),
the number of summaries in the response equals
`min(total - offset, limit)`. -/
theorem c6_page_length (sbomB : SbomBackend) (vex : VexBackend) (aq : AdvisoriesQuery)
    (params : QueryParams) (options : SearchOptions) (tok : Credential)
    (data : PrimaryResponse)
    (hp : sbomB params.q params.offset params.limit options tok = Except.ok data)
    (hc : PrimaryPageContract params data) :
    ∃ res, search sbomB vex aq params options tok = Except.ok res ∧
      res.result.length = min (data.total - params.offset) params.limit := by
  refine ⟨_, search_eq_ok sbomB vex aq params options tok data hp, ?_⟩
  simpa using hc

theorem c6_page_length_witness :
    ∃ res, search wSbomB wVex wAq wParams wOptions wTok = Except.ok res ∧
      res.result.length = min (5 - 0) 2 :=
  c6_page_length wSbomB wVex wAq wParams wOptions wTok wData rfl rfl

/-- C7: enrichment touches only `advisories`: every other summary field is
unchanged by `enrichOne`; and the response list corresponds positionally to
the primary backend's page — same length, each entry equal to the mapped
summary of the backend item at the same index up to its `advisories`
field. -/
theorem c7_enrichment_frame (sbomB : SbomBackend) (vex : VexBackend)
    (aq : AdvisoriesQuery) (params : QueryParams) (options : SearchOptions)
    (tok : Credential) (data : PrimaryResponse)
    (hp : sbomB params.q params.offset params.limit options tok = Except.ok data) :
    (∀ s : SbomSummary,
      (enrichOne vex aq tok s).id = s.id ∧ (enrichOne vex aq tok s).purl = s.purl ∧
      (enrichOne vex aq tok s).name = s.name ∧ (enrichOne vex aq tok s).cpe = s.cpe ∧
      (enrichOne vex aq tok s).version = s.version ∧
      (enrichOne vex aq tok s).sha256 = s.sha256 ∧
      (enrichOne vex aq tok s).license = s.license ∧
      (enrichOne vex aq tok s).snippet = s.snippet ∧
      (enrichOne vex aq tok s).classifier = s.classifier ∧
      (enrichOne vex aq tok s).supplier = s.supplier ∧
      (enrichOne vex aq tok s).href = s.href ∧
      (enrichOne vex aq tok s).description = s.description ∧
      (enrichOne vex aq tok s).dependencies = s.dependencies ∧
      (enrichOne vex aq tok s).vulnerabilities = s.vulnerabilities ∧
      (enrichOne vex aq tok s).created = s.created ∧
      (enrichOne vex aq tok s).metadata = s.metadata) ∧
    ∃ res, search sbomB vex aq params options tok = Except.ok res ∧
      res.result.length = data.result.length ∧
      ∀ (i : Nat) (item : ResultItem), data.result[i]? = some item →
        ∃ s, res.result[i]? = some s ∧
          s = { mapSummary item with advisories := s.advisories } := by
  constructor
  · intro s
    have h := enrichOne_frame vex aq tok s
    refine ⟨?_, ?_, ?_, ?_, ?_, ?_, ?_, ?_, ?_, ?_, ?_, ?_, ?_, ?_, ?_, ?_⟩ <;> rw [h]
  · refine ⟨_, search_eq_ok sbomB vex aq params options tok data hp, by simp, ?_⟩
    intro i item hitem
    refine ⟨enrichOne vex aq tok (mapSummary item), ?_, ?_⟩
    · rw [List.getElem?_map, hitem]; rfl
    · exact enrichOne_frame vex aq tok (mapSummary item)

theorem c7_enrichment_frame_witness :
    (enrichOne wVex wAq wTok (mapSummary { document := wDoc2, metadata := some [("k", "v")] })).supplier =
        (mapSummary { document := wDoc2, metadata := some [("k", "v")] }).supplier ∧
    ∃ res, search wSbomB wVex wAq wParams wOptions wTok = Except.ok res ∧
      res.result.length = 2 ∧
      ∃ s, res.result[0]? = some s ∧
        s = { mapSummary { document := wDoc1, metadata := none } with advisories := s.advisories } := by
  obtain ⟨hframe, res, h1, h2, h3⟩ :=
    c7_enrichment_frame wSbomB wVex wAq wParams wOptions wTok wData rfl
  obtain ⟨-, -, -, -, -, -, -, -, -, hsup, -⟩ :=
    hframe (mapSummary { document := wDoc2, metadata := some [("k", "v")] })
  exact ⟨hsup, res, h1, h2, h3 0 { document := wDoc1, metadata := none } rfl⟩

/-- C9: the search operation is deterministic — against backends with the
same responses, the same request yields identical `SearchResult` content. -/
theorem c9_deterministic (sb1 sb2 : SbomBackend) (vx1 vx2 : VexBackend)
    (aq : AdvisoriesQuery) (params : QueryParams) (options : SearchOptions)
    (tok : Credential)
    (hsb : ∀ q o l op c, sb1 q o l op c = sb2 q o l op c)
    (hvx : ∀ q o l op c, vx1 q o l op c = vx2 q o l op c) :
    search sb1 vx1 aq params options tok = search sb2 vx2 aq params options tok := by
  have h1 : sb1 = sb2 :=
    funext fun q => funext fun o => funext fun l => funext fun op => funext fun c =>
      hsb q o l op c
  have h2 : vx1 = vx2 :=
    funext fun q => funext fun o => funext fun l => funext fun op => funext fun c =>
      hvx q o l op c
  rw [h1, h2]

theorem c9_deterministic_witness :
    search wSbomB wVex wAq wParams wOptions wTok =
      search wSbomB wVex wAq wParams wOptions wTok :=
  c9_deterministic wSbomB wSbomB wVex wVex wAq wParams wOptions wTok
    (fun _ _ _ _ _ => rfl) (fun _ _ _ _ _ => rfl)

/-- C5 counterexample: the source strips the `Organization: ` label
repeatedly, not once — on a supplier carrying the label twice, the mapped
supplier differs from the claim's single-strip reading. -/
theorem c5_counterexample :
    (mapSummary { document := c5doc, metadata := none }).supplier = "Acme Corp" ∧
    stripSingleLeading "Organization: " c5doc.supplier = "Organization: Acme Corp" ∧
    (mapSummary { document := c5doc, metadata := none }).supplier ≠
      stripSingleLeading "Organization: " c5doc.supplier :=
  ⟨rfl, rfl, by decide⟩

/-- C5 (amended): the mapped supplier strips all leading repetitions of the
`Organization: ` prefix — the document's supplier is some number of copies of
the prefix followed by the mapped supplier, the mapped supplier no longer
starts with the prefix, and a supplier without the prefix is unchanged. -/
theorem c5_amended_strip_repeated (item : ResultItem) :
    (∃ k, item.document.supplier.data =
        (List.replicate k "Organization: ".data).flatten ++ (mapSummary item).supplier.data) ∧
    "Organization: ".data.isPrefixOf (mapSummary item).supplier.data = false ∧
    ("Organization: ".data.isPrefixOf item.document.supplier.data = false →
      (mapSummary item).supplier = item.document.supplier) := by
  have hpat : "Organization: ".data ≠ [] := by decide
  have hsup : (mapSummary item).supplier.data =
      stripAllFuel "Organization: ".data item.document.supplier.data.length
        item.document.supplier.data := rfl
  obtain ⟨⟨k, hk⟩, hnp⟩ := stripAllFuel_spec "Organization: ".data hpat
    item.document.supplier.data.length item.document.supplier.data (Nat.le_refl _)
  refine ⟨⟨k, ?_⟩, ?_, ?_⟩
  · rw [hsup]; exact hk
  · rw [hsup]; exact hnp
  · intro h
    show trimStartMatches "Organization: " item.document.supplier = item.document.supplier
    unfold trimStartMatches
    rw [stripAllFuel_of_no_match h]

theorem c5_amended_strip_repeated_witness :
    (∃ k, ({ document := wDoc1, metadata := none } : ResultItem).document.supplier.data =
        (List.replicate k "Organization: ".data).flatten ++
          (mapSummary { document := wDoc1, metadata := none }).supplier.data) ∧
    "Organization: ".data.isPrefixOf
        (mapSummary { document := wDoc1, metadata := none }).supplier.data = false ∧
    ("Organization: ".data.isPrefixOf
        ({ document := wDoc1, metadata := none } : ResultItem).document.supplier.data = false →
      (mapSummary { document := wDoc1, metadata := none }).supplier =
        ({ document := wDoc1, metadata := none } : ResultItem).document.supplier) :=
  c5_amended_strip_repeated { document := wDoc1, metadata := none }

/-- C2: when the primary SBOM search succeeds, the response envelope's
`total` equals the primary backend's reported total — for every advisory
backend and query derivation, so independent of enrichment outcomes — and is
not recomputed from the enriched list's length (which equals the page
length, not the total). -/
theorem c2_total_from_primary (sbomB : SbomBackend) (vex : VexBackend)
    (aq : AdvisoriesQuery) (params : QueryParams) (options : SearchOptions)
    (tok : Credential) (data : PrimaryResponse)
    (hp : sbomB params.q params.offset params.limit options tok = Except.ok data) :
    ∃ res, search sbomB vex aq params options tok = Except.ok res ∧
      res.total = some data.total ∧ res.result.length = data.result.length :=
  ⟨_, search_eq_ok sbomB vex aq params options tok data hp, rfl, by simp⟩

theorem c2_total_from_primary_witness :
    ∃ res, search wSbomB wVex wAq wParams wOptions wTok = Except.ok res ∧
      res.total = some 5 ∧ res.result.length = 2 :=
  c2_total_from_primary wSbomB wVex wAq wParams wOptions wTok wData rfl

/-- C4: if the primary SBOM search fails with a backend error, the whole
request fails with that very error, for every advisory backend and query
derivation — so the failure is surfaced before any mapping or enrichment can
influence the outcome, and no response body is produced. -/
theorem c4_primary_failure_propagates (sbomB : SbomBackend) (params : QueryParams)
    (options : SearchOptions) (tok : Credential) (e : BackendError)
    (he : sbomB params.q params.offset params.limit options tok = Except.error e) :
    ∀ (vex : VexBackend) (aq : AdvisoriesQuery),
      search sbomB vex aq params options tok = Except.error e := by
  intro vex aq
  simp [search, he]

theorem c4_primary_failure_propagates_witness :
    search wSbomErrB wVex wAq wParams wOptions wTok =
      Except.error { msg := "primary down" } :=
  c4_primary_failure_propagates wSbomErrB wParams wOptions wTok
    { msg := "primary down" } rfl wVex wAq

/-- C8: the mapped summary's self-link is exactly `/api/v1/sbom?id=<id>` for
the document's id, both directly after mapping and positionally in the final
response (enrichment leaves `href` untouched). -/
theorem c8_href_self_link (sbomB : SbomBackend) (vex : VexBackend)
    (aq : AdvisoriesQuery) (params : QueryParams) (options : SearchOptions)
    (tok : Credential) (item : ResultItem) (data : PrimaryResponse)
    (hp : sbomB params.q params.offset params.limit options tok = Except.ok data) :
    (mapSummary item).href = "/api/v1/sbom?id=" ++ item.document.id ∧
    ∃ res, search sbomB vex aq params options tok = Except.ok res ∧
      ∀ i : Nat, (res.result[i]?).map SbomSummary.href =
        (data.result[i]?).map fun it => "/api/v1/sbom?id=" ++ it.document.id := by
  refine ⟨rfl, _, search_eq_ok sbomB vex aq params options tok data hp, ?_⟩
  intro i
  rw [List.getElem?_map]
  cases data.result[i]? with
  | none => rfl
  | some it => simp [enrichOne_href]; rfl

theorem c8_href_self_link_witness :
    (mapSummary { document := wDoc1, metadata := none }).href =
        "/api/v1/sbom?id=" ++ ({ document := wDoc1, metadata := none } : ResultItem).document.id ∧
    ∃ res, search wSbomB wVex wAq wParams wOptions wTok = Except.ok res ∧
      ∀ i : Nat, (res.result[i]?).map SbomSummary.href =
        (wData.result[i]?).map fun it => "/api/v1/sbom?id=" ++ it.document.id :=
  c8_href_self_link wSbomB wVex wAq wParams wOptions wTok
    { document := wDoc1, metadata := none } wData rfl

/-- C10: the stub endpoint takes no request input and always returns status
200 with the fixed value: keys `sbom1`, `sbom2`, `sbom3`, each paired with
the identical severity sequence None 3, Low 5, Medium 10, High 4,
Critical 2. -/
theorem c10_stub_constant :
    fixedSeverityEntries =
      [{ severity := Severity.none, count := 3 }, { severity := Severity.low, count := 5 },
       { severity := Severity.medium, count := 10 }, { severity := Severity.high, count := 4 },
       { severity := Severity.critical, count := 2 }] ∧
    sboms_with_vulnerability_summary =
      Except.ok (200, [("sbom1", fixedSeverityEntries), ("sbom2", fixedSeverityEntries),
        ("sbom3", fixedSeverityEntries)]) :=
  ⟨rfl, rfl⟩

end SbomSearch
